import Mathlib

/-!
Shallow embedding of `rlax/_src/losses.py`: three pure, elementwise loss /
likelihood functions over floating-point arrays (`l2_loss`, `likelihood`,
`log_loss`), each guarded by a dtype assertion.

Arrays are modelled as flat lists of real numbers tagged with an element
dtype; elementwise operations are `List.zipWith` / `List.map`; the dtype
assertion failure is modelled with `Except`.
-/

namespace Rlax

/-- Element dtype of an array: the only distinction `losses.py` inspects is
floating-point versus not (e.g. integer). -/
inductive DType where
  | float
  | int
  deriving DecidableEq, Repr

/-- Whether a dtype is floating-point. -/
def DType.isFloat : DType → Bool
  | DType.float => true
  | DType.int => false

/-- An array-like value: an element dtype together with its (flattened)
numeric contents, modelled as real numbers. -/
structure ArrayLike where
  dtype : DType
  data : List ℝ

/-- The failure raised by the dtype assertion. -/
inductive TypeAssertionError where
  | typeAssertion
  deriving DecidableEq, Repr

/-- Modelled from the spec: `rlax._src.base.type_assert` (the module
`base.py` is not among the sources) — "a type/dtype-assertion primitive
that fails when an array's element type is not floating-point", raised
synchronously before any numeric computation. -/
def type_assert (arrays : List ArrayLike) : Except TypeAssertionError Unit :=
  if arrays.all (fun a => a.dtype.isFloat) then Except.ok ()
  else Except.error TypeAssertionError.typeAssertion

/-- `jnp.zeros_like`: an all-zeros array of the same shape and dtype. -/
def zeros_like (a : ArrayLike) : ArrayLike :=
  ⟨a.dtype, a.data.map (fun _ => 0)⟩

/-- Elementwise body of `l2_loss` (losses.py line 50):
`0.5 * (predictions - targets)**2`. -/
noncomputable def l2_loss_elem (p t : ℝ) : ℝ :=
  0.5 * (p - t) ^ 2

/-- `l2_loss(predictions, targets=None)` (losses.py lines 31–50): default the
targets to zeros of predictions' shape, assert float dtypes, then return the
elementwise squared error halved. -/
noncomputable def l2_loss (predictions : ArrayLike) (targets : Option ArrayLike) :
    Except TypeAssertionError ArrayLike :=
  let targets := targets.getD (zeros_like predictions)
  match type_assert [predictions, targets] with
  | Except.error e => Except.error e
  | Except.ok _ =>
      Except.ok ⟨DType.float, List.zipWith l2_loss_elem predictions.data targets.data⟩

/-- Elementwise body of `likelihood` (losses.py lines 64–69):
`likelihood_vals = predictions**targets * (1 - predictions)**(1 - targets)`,
then `where(filter_indices, 1, likelihood_vals)` with
`filter_indices = (targets == 1 and predictions == 1) or
(targets == 0 and predictions == 0)`.  The powers are real-exponent powers
(`Real.rpow`). -/
noncomputable def likelihood_elem (p t : ℝ) : ℝ :=
  if (t = 1 ∧ p = 1) ∨ (t = 0 ∧ p = 0) then 1
  else p ^ t * (1 - p) ^ (1 - t)

/-- `likelihood(predictions, targets)` (losses.py lines 53–69): assert float
dtypes, then apply `likelihood_elem` elementwise. -/
noncomputable def likelihood (predictions targets : ArrayLike) :
    Except TypeAssertionError ArrayLike :=
  match type_assert [predictions, targets] with
  | Except.error e => Except.error e
  | Except.ok _ =>
      Except.ok ⟨DType.float, List.zipWith likelihood_elem predictions.data targets.data⟩

/-- `log_loss(predictions, targets)` (losses.py lines 72–86): assert float
dtypes, then return `-jnp.log(likelihood(predictions, targets))`
elementwise. -/
noncomputable def log_loss (predictions targets : ArrayLike) :
    Except TypeAssertionError ArrayLike :=
  match type_assert [predictions, targets] with
  | Except.error e => Except.error e
  | Except.ok _ =>
      match likelihood predictions targets with
      | Except.error e => Except.error e
      | Except.ok out => Except.ok ⟨DType.float, out.data.map (fun x => -Real.log x)⟩

/-! ### Helper lemmas -/

/-- When both dtypes are floating-point the assertion passes. -/
theorem type_assert_pair_ok (p t : ArrayLike) (hp : p.dtype.isFloat = true)
    (ht : t.dtype.isFloat = true) : type_assert [p, t] = Except.ok () := by
  simp [type_assert, hp, ht]

/-- When some dtype is not floating-point the assertion fails. -/
theorem type_assert_pair_error (p t : ArrayLike)
    (h : ¬(p.dtype.isFloat = true ∧ t.dtype.isFloat = true)) :
    type_assert [p, t] = Except.error TypeAssertionError.typeAssertion := by
  have hfalse : ([p, t].all (fun a => a.dtype.isFloat)) = false := by
    cases hpf : p.dtype.isFloat <;> cases htf : t.dtype.isFloat <;> simp_all
  simp [type_assert, hfalse]

/-- `likelihood` on float inputs: the assertion passes and the elementwise
kernel is applied. -/
theorem likelihood_ok (p t : ArrayLike) (hp : p.dtype.isFloat = true)
    (ht : t.dtype.isFloat = true) :
    likelihood p t =
      Except.ok ⟨DType.float, List.zipWith likelihood_elem p.data t.data⟩ := by
  rw [likelihood, type_assert_pair_ok p t hp ht]

/-- `likelihood` on a non-float input: the assertion fails. -/
theorem likelihood_error (p t : ArrayLike)
    (h : ¬(p.dtype.isFloat = true ∧ t.dtype.isFloat = true)) :
    likelihood p t = Except.error TypeAssertionError.typeAssertion := by
  rw [likelihood, type_assert_pair_error p t h]

/-- Inversion: a successful `likelihood` call determines its output and the
dtypes of its inputs. -/
theorem likelihood_ok_inv (p t out : ArrayLike)
    (h : likelihood p t = Except.ok out) :
    out = ⟨DType.float, List.zipWith likelihood_elem p.data t.data⟩ ∧
      p.dtype.isFloat = true ∧ t.dtype.isFloat = true := by
  by_cases hp : p.dtype.isFloat = true
  · by_cases ht : t.dtype.isFloat = true
    · rw [likelihood_ok p t hp ht] at h
      exact ⟨(Except.ok.injEq _ _ ▸ h.symm : _), hp, ht⟩

    · rw [likelihood_error p t (by tauto)] at h
      cases h
  · rw [likelihood_error p t (by tauto)] at h
    cases h

/-- `l2_loss` with explicit float targets. -/
theorem l2_loss_some_ok (p t : ArrayLike) (hp : p.dtype.isFloat = true)
    (ht : t.dtype.isFloat = true) :
    l2_loss p (some t) =
      Except.ok ⟨DType.float, List.zipWith l2_loss_elem p.data t.data⟩ := by
  rw [l2_loss]
  simp only [Option.getD_some]
  rw [type_assert_pair_ok p t hp ht]

/-- `l2_loss` with explicit targets and a non-float input fails. -/
theorem l2_loss_some_error (p t : ArrayLike)
    (h : ¬(p.dtype.isFloat = true ∧ t.dtype.isFloat = true)) :
    l2_loss p (some t) = Except.error TypeAssertionError.typeAssertion := by
  rw [l2_loss]
  simp only [Option.getD_some]
  rw [type_assert_pair_error p t h]

/-- Reading a `zipWith` at an index where both lists are defined. -/
theorem zipWith_getElem?_eq (f : ℝ → ℝ → ℝ) (l₁ l₂ : List ℝ) (i : ℕ) (a b : ℝ)
    (h₁ : l₁[i]? = some a) (h₂ : l₂[i]? = some b) :
    (List.zipWith f l₁ l₂)[i]? = some (f a b) := by
  rw [List.getElem?_zipWith, h₁, h₂]

/-- The override mask forces the elementwise kernel to 1. -/
theorem likelihood_elem_mask (pv tv : ℝ)
    (hmask : (tv = 1 ∧ pv = 1) ∨ (tv = 0 ∧ pv = 0)) :
    likelihood_elem pv tv = 1 := by
  rw [likelihood_elem, if_pos hmask]

/-- `log_loss` on float inputs: negated elementwise log of `likelihood`. -/
theorem log_loss_ok (p t : ArrayLike) (hp : p.dtype.isFloat = true)
    (ht : t.dtype.isFloat = true) :
    log_loss p t = Except.ok ⟨DType.float,
      (List.zipWith likelihood_elem p.data t.data).map (fun x => -Real.log x)⟩ := by
  rw [log_loss, type_assert_pair_ok p t hp ht, likelihood_ok p t hp ht]

/-- `log_loss` on a non-float input: the assertion fails. -/
theorem log_loss_error (p t : ArrayLike)
    (h : ¬(p.dtype.isFloat = true ∧ t.dtype.isFloat = true)) :
    log_loss p t = Except.error TypeAssertionError.typeAssertion := by
  rw [log_loss, type_assert_pair_error p t h]

/-- Every element of a `zipWith` is an image of the function. -/
theorem exists_of_mem_zipWith {f : ℝ → ℝ → ℝ} : ∀ {l₁ l₂ : List ℝ} {x : ℝ},
    x ∈ List.zipWith f l₁ l₂ → ∃ a b, x = f a b := by
  intro l₁
  induction l₁ with
  | nil => intro l₂ x hx; simp at hx
  | cons a l₁ ih =>
    intro l₂ x hx
    cases l₂ with
    | nil => simp at hx
    | cons b l₂ =>
      rw [List.zipWith_cons_cons, List.mem_cons] at hx
      rcases hx with hx | hx
      · exact ⟨a, b, hx⟩
      · exact ih hx

/-! ### Claims -/

/-- C1: at every position where (targets == 1 and predictions == 1) or
(targets == 0 and predictions == 0), `likelihood` returns exactly 1: the
elementwise mask selection overrides whatever the direct formula computes. -/
theorem C1_likelihood_override (p t out : ArrayLike)
    (hout : likelihood p t = Except.ok out) (i : ℕ) (pv tv : ℝ)
    (hpv : p.data[i]? = some pv) (htv : t.data[i]? = some tv)
    (hmask : (tv = 1 ∧ pv = 1) ∨ (tv = 0 ∧ pv = 0)) :
    out.data[i]? = some 1 := by
  obtain ⟨rfl, hp, ht⟩ := likelihood_ok_inv p t out hout
  rw [show (⟨DType.float, List.zipWith likelihood_elem p.data t.data⟩ :
      ArrayLike).data = List.zipWith likelihood_elem p.data t.data from rfl,
    zipWith_getElem?_eq likelihood_elem p.data t.data i pv tv hpv htv,
    likelihood_elem_mask pv tv hmask]

/-- C1 witness: the override at predictions = targets = [1]. -/
theorem C1_likelihood_override_witness :
    likelihood ⟨DType.float, [1]⟩ ⟨DType.float, [1]⟩ =
        Except.ok ⟨DType.float, [1]⟩ ∧
      (⟨DType.float, [1]⟩ : ArrayLike).data[0]? = some 1 := by
  have h : likelihood ⟨DType.float, [1]⟩ ⟨DType.float, [1]⟩ =
      Except.ok ⟨DType.float, [1]⟩ := by
    rw [likelihood_ok ⟨DType.float, [1]⟩ ⟨DType.float, [1]⟩ rfl rfl]
    norm_num [likelihood_elem]
  exact ⟨h, C1_likelihood_override _ _ _ h 0 1 1 rfl rfl (Or.inl ⟨rfl, rfl⟩)⟩

/-- C8: `likelihood([1.0, 0.0, 0.5], [1.0, 0.0, 1.0])` returns
`[1.0, 1.0, 0.5]`: the first two positions are overridden to 1 and the third
takes the direct-formula value 0.5. -/
theorem C8_likelihood_scenario :
    likelihood ⟨DType.float, [1, 0, 0.5]⟩ ⟨DType.float, [1, 0, 1]⟩ =
      Except.ok ⟨DType.float, [1, 1, 0.5]⟩ := by
  rw [likelihood_ok ⟨DType.float, [1, 0, 0.5]⟩ ⟨DType.float, [1, 0, 1]⟩ rfl rfl]
  norm_num [likelihood_elem, Real.rpow_one, Real.rpow_zero]

/-- C2: `log_loss` literally composes `likelihood` and negates the natural
log of its output elementwise, and at every override position of
`likelihood` it equals exactly 0. -/
theorem C2_log_loss_neg_log_likelihood (p t out : ArrayLike)
    (hout : likelihood p t = Except.ok out) :
    log_loss p t = Except.ok ⟨DType.float, out.data.map (fun x => -Real.log x)⟩ ∧
      ∀ (i : ℕ) (pv tv : ℝ), p.data[i]? = some pv → t.data[i]? = some tv →
        ((tv = 1 ∧ pv = 1) ∨ (tv = 0 ∧ pv = 0)) →
        (out.data.map (fun x => -Real.log x))[i]? = some 0 := by
  obtain ⟨rfl, hp, ht⟩ := likelihood_ok_inv p t out hout
  constructor
  · rw [log_loss_ok p t hp ht]
  · intro i pv tv hpv htv hmask
    rw [show (⟨DType.float, List.zipWith likelihood_elem p.data t.data⟩ :
        ArrayLike).data = List.zipWith likelihood_elem p.data t.data from rfl,
      List.getElem?_map,
      zipWith_getElem?_eq likelihood_elem p.data t.data i pv tv hpv htv,
      Option.map_some']
    rw [likelihood_elem_mask pv tv hmask, Real.log_one, neg_zero]

/-- C2 witness: at predictions = targets = [1] the log loss is exactly 0. -/
theorem C2_log_loss_neg_log_likelihood_witness :
    likelihood ⟨DType.float, [1]⟩ ⟨DType.float, [1]⟩ =
        Except.ok ⟨DType.float, [1]⟩ ∧
      log_loss ⟨DType.float, [1]⟩ ⟨DType.float, [1]⟩ =
        Except.ok ⟨DType.float, [0]⟩ := by
  have hl : likelihood ⟨DType.float, [1]⟩ ⟨DType.float, [1]⟩ =
      Except.ok ⟨DType.float, [1]⟩ := by
    rw [likelihood_ok ⟨DType.float, [1]⟩ ⟨DType.float, [1]⟩ rfl rfl]
    norm_num [likelihood_elem]
  have h := (C2_log_loss_neg_log_likelihood _ _ _ hl).1
  refine ⟨hl, ?_⟩
  simpa [Real.log_one] using h

/-- C3: `l2_loss` with omitted targets equals `l2_loss` against zeros and
equals elementwise `0.5 * p^2`; in general it is elementwise
`0.5 * (p - t)^2` and every element of the output is non-negative. -/
theorem C3_l2_loss_formula (p : ArrayLike) (hp : p.dtype.isFloat = true) :
    l2_loss p none = l2_loss p (some (zeros_like p)) ∧
      l2_loss p none =
        Except.ok ⟨DType.float, p.data.map (fun x => 0.5 * x ^ 2)⟩ ∧
      (∀ t : ArrayLike, t.dtype.isFloat = true →
        l2_loss p (some t) = Except.ok ⟨DType.float,
          List.zipWith (fun a b => 0.5 * (a - b) ^ 2) p.data t.data⟩) ∧
      (∀ (t out : ArrayLike), l2_loss p (some t) = Except.ok out →
        ∀ x ∈ out.data, 0 ≤ x) := by
  have h0 : l2_loss p none = l2_loss p (some (zeros_like p)) := rfl
  refine ⟨h0, ?_, ?_, ?_⟩
  · rw [h0, l2_loss_some_ok p (zeros_like p) hp hp]
    have hzip : List.zipWith l2_loss_elem p.data ((zeros_like p).data) =
        List.map (fun x => 0.5 * x ^ 2) p.data := by
      rw [show (zeros_like p).data = p.data.map (fun _ => (0:ℝ)) from rfl,
        List.zipWith_map_right, List.zipWith_same]
      simp [l2_loss_elem]
    rw [hzip]
  · intro t ht
    rw [l2_loss_some_ok p t hp ht]
    rfl
  · intro t out hout
    by_cases ht : t.dtype.isFloat = true
    · rw [l2_loss_some_ok p t hp ht] at hout
      have hdata : out.data = List.zipWith l2_loss_elem p.data t.data := by
        cases hout
        rfl
      rw [hdata]
      intro x hx
      obtain ⟨a, b, rfl⟩ := exists_of_mem_zipWith hx
      rw [l2_loss_elem]
      positivity
    · rw [l2_loss_some_error p t (by tauto)] at hout
      cases hout

/-- C3 witness: `l2_loss([2.0])` with no targets yields `[2.0]`. -/
theorem C3_l2_loss_formula_witness :
    l2_loss ⟨DType.float, [2]⟩ none = Except.ok ⟨DType.float, [2]⟩ := by
  have h := (C3_l2_loss_formula ⟨DType.float, [2]⟩ rfl).2.1
  norm_num at h
  exact h

/-- C4: each of the three functions fails with the type-assertion error
exactly when some input array dtype (after defaulting, for `l2_loss`) is not
floating-point; on failure no output array is produced. -/
theorem C4_type_assert_gate :
    (∀ (p : ArrayLike) (topt : Option ArrayLike),
      l2_loss p topt = Except.error TypeAssertionError.typeAssertion ↔
        ¬(p.dtype.isFloat = true ∧
          (topt.getD (zeros_like p)).dtype.isFloat = true)) ∧
    (∀ p t : ArrayLike,
      likelihood p t = Except.error TypeAssertionError.typeAssertion ↔
        ¬(p.dtype.isFloat = true ∧ t.dtype.isFloat = true)) ∧
    (∀ p t : ArrayLike,
      log_loss p t = Except.error TypeAssertionError.typeAssertion ↔
        ¬(p.dtype.isFloat = true ∧ t.dtype.isFloat = true)) := by
  refine ⟨?_, ?_, ?_⟩
  · intro p topt
    have hrw : l2_loss p topt = l2_loss p (some (topt.getD (zeros_like p))) := by
      cases topt <;> rfl
    rw [hrw]
    by_cases h : p.dtype.isFloat = true ∧
        (topt.getD (zeros_like p)).dtype.isFloat = true
    · rw [l2_loss_some_ok p _ h.1 h.2]
      simp [h]
    · rw [l2_loss_some_error p _ h]
      simp [h]
  · intro p t
    by_cases h : p.dtype.isFloat = true ∧ t.dtype.isFloat = true
    · rw [likelihood_ok p t h.1 h.2]
      simp [h]
    · rw [likelihood_error p t h]
      simp [h]
  · intro p t
    by_cases h : p.dtype.isFloat = true ∧ t.dtype.isFloat = true
    · rw [log_loss_ok p t h.1 h.2]
      simp [h]
    · rw [log_loss_error p t h]
      simp [h]

/-- C4 witness: an integer-typed predictions array makes `likelihood` fail. -/
theorem C4_type_assert_gate_witness :
    likelihood ⟨DType.int, [1]⟩ ⟨DType.float, [1]⟩ =
      Except.error TypeAssertionError.typeAssertion :=
  (C4_type_assert_gate.2.1 ⟨DType.int, [1]⟩ ⟨DType.float, [1]⟩).mpr (by decide)

/-- Congruence for `zipWith` when the functions agree on every element of
the right list. -/
theorem zipWith_congr_right (f g : ℝ → ℝ → ℝ) (l₁ l₂ : List ℝ)
    (h : ∀ b ∈ l₂, ∀ a, f a b = g a b) :
    List.zipWith f l₁ l₂ = List.zipWith g l₁ l₂ := by
  induction l₁ generalizing l₂ with
  | nil => simp
  | cons a l₁ ih =>
    cases l₂ with
    | nil => simp
    | cons b l₂ =>
      rw [List.zipWith_cons_cons, List.zipWith_cons_cons,
        h b (List.mem_cons_self b l₂) a,
        ih l₂ (fun c hc a => h c (List.mem_cons_of_mem b hc) a)]

/-- C5: when every target value lies strictly between 0 and 1, `likelihood`
equals the direct formula `p^t * (1-p)^(1-t)` elementwise, with no override
applied at any position. -/
theorem C5_likelihood_no_override (p t : ArrayLike)
    (hp : p.dtype.isFloat = true) (ht : t.dtype.isFloat = true)
    (hrange : ∀ x ∈ t.data, 0 < x ∧ x < 1) :
    likelihood p t = Except.ok ⟨DType.float,
      List.zipWith (fun pv tv => pv ^ tv * (1 - pv) ^ (1 - tv)) p.data t.data⟩ := by
  rw [likelihood_ok p t hp ht]
  have hzip : List.zipWith likelihood_elem p.data t.data =
      List.zipWith (fun pv tv => pv ^ tv * (1 - pv) ^ (1 - tv)) p.data t.data := by
    refine zipWith_congr_right _ _ p.data t.data (fun tv htv pv => ?_)
    obtain ⟨h0, h1⟩ := hrange tv htv
    rw [likelihood_elem, if_neg]
    rintro (⟨hm, _⟩ | ⟨hm, _⟩)
    · exact absurd hm (by linarith)
    · exact absurd hm (by linarith)
  rw [hzip]

/-- C5 witness: targets = [1/2] lie strictly inside (0, 1) and the output is
the direct formula value. -/
theorem C5_likelihood_no_override_witness :
    likelihood ⟨DType.float, [(1/4 : ℝ)]⟩ ⟨DType.float, [(1/2 : ℝ)]⟩ =
      Except.ok ⟨DType.float,
        [(1/4 : ℝ) ^ (1/2 : ℝ) * (3/4 : ℝ) ^ (1/2 : ℝ)]⟩ := by
  have h := C5_likelihood_no_override ⟨DType.float, [(1/4 : ℝ)]⟩
    ⟨DType.float, [(1/2 : ℝ)]⟩ rfl rfl
    (by intro x hx; rw [List.mem_singleton] at hx; rw [hx]; norm_num)
  rw [h]
  norm_num

/-- C6: `l2_loss` is symmetric in predictions and targets. -/
theorem C6_l2_loss_symm (p t : ArrayLike) :
    l2_loss p (some t) = l2_loss t (some p) := by
  by_cases h : p.dtype.isFloat = true ∧ t.dtype.isFloat = true
  · rw [l2_loss_some_ok p t h.1 h.2, l2_loss_some_ok t p h.2 h.1,
      List.zipWith_comm_of_comm l2_loss_elem
        (fun a b => by rw [l2_loss_elem, l2_loss_elem]; ring) p.data t.data]
  · rw [l2_loss_some_error p t h, l2_loss_some_error t p (by tauto)]

/-- The elementwise likelihood kernel is invariant under complementing both
arguments. -/
theorem likelihood_elem_complement (a b : ℝ) :
    likelihood_elem (1 - a) (1 - b) = likelihood_elem a b := by
  rw [likelihood_elem, likelihood_elem,
    show (1:ℝ) - (1 - a) = a by ring, show (1:ℝ) - (1 - b) = b by ring]
  refine if_congr ?_ rfl (mul_comm _ _)
  constructor
  · rintro (⟨h₁, h₂⟩ | ⟨h₁, h₂⟩)
    · exact Or.inr ⟨by linarith, by linarith⟩
    · exact Or.inl ⟨by linarith, by linarith⟩
  · rintro (⟨h₁, h₂⟩ | ⟨h₁, h₂⟩)
    · exact Or.inr ⟨by linarith, by linarith⟩
    · exact Or.inl ⟨by linarith, by linarith⟩

/-- C9: `likelihood` is invariant under simultaneously complementing
predictions and targets: `likelihood(1 - p, 1 - t) = likelihood(p, t)`. -/
theorem C9_likelihood_complement (p t : ArrayLike) :
    likelihood ⟨p.dtype, p.data.map (fun x => 1 - x)⟩
        ⟨t.dtype, t.data.map (fun x => 1 - x)⟩ =
      likelihood p t := by
  by_cases h : p.dtype.isFloat = true ∧ t.dtype.isFloat = true
  · rw [likelihood_ok ⟨p.dtype, p.data.map (fun x => 1 - x)⟩
      ⟨t.dtype, t.data.map (fun x => 1 - x)⟩ h.1 h.2,
      likelihood_ok p t h.1 h.2]
    rw [show (⟨p.dtype, p.data.map (fun x => 1 - x)⟩ : ArrayLike).data =
        p.data.map (fun x => 1 - x) from rfl,
      show (⟨t.dtype, t.data.map (fun x => 1 - x)⟩ : ArrayLike).data =
        t.data.map (fun x => 1 - x) from rfl,
      List.zipWith_map]
    have hfun : (fun a b => likelihood_elem (1 - a) (1 - b)) = likelihood_elem := by
      funext a b
      exact likelihood_elem_complement a b
    rw [hfun]
  · rw [likelihood_error ⟨p.dtype, p.data.map (fun x => 1 - x)⟩
      ⟨t.dtype, t.data.map (fun x => 1 - x)⟩ h,
      likelihood_error p t h]

/-- C10: `l2_loss` of an array against itself is all zeros of the same
shape. -/
theorem C10_l2_loss_self (p : ArrayLike) (hp : p.dtype.isFloat = true) :
    l2_loss p (some p) = Except.ok ⟨DType.float, p.data.map (fun _ => 0)⟩ := by
  rw [l2_loss_some_ok p p hp hp, List.zipWith_same]
  have hfun : (fun a : ℝ => l2_loss_elem a a) = (fun _ : ℝ => (0:ℝ)) := by
    funext a
    rw [l2_loss_elem]
    ring
  rw [hfun]

/-- C10 witness: `l2_loss([3.0], [3.0])` is `[0.0]`. -/
theorem C10_l2_loss_self_witness :
    l2_loss ⟨DType.float, [3]⟩ (some ⟨DType.float, [3]⟩) =
      Except.ok ⟨DType.float, [0]⟩ := by
  have h := C10_l2_loss_self ⟨DType.float, [3]⟩ rfl
  simpa using h

end Rlax
